import Mathlib

/-!
# Verification development for the SIEG-OGB Graphormer (`src/graphormer.py`)

Shallow embedding of the Graphormer model of `graphormer.py`. Tensors are
modelled as total functions from natural-number indices to rationals
(floating-point values are modelled exactly over `ℚ`); integer tensors are
functions into `ℤ`. Nonlinear library primitives with irrational values
(the exponential inside `torch.softmax`, the reciprocal square root used by
`att_size ** -0.5` and by `nn.LayerNorm`, and `nn.GELU`) are abstracted as a
`Primitives` record of rational functions; everything else is computed
exactly as the source does. Dropout layers are modelled in evaluation mode
(identity), matching the deterministic setting the specification's
determinism properties refer to.

Fallible Python attribute accesses (reading a `data` field or a module
attribute that may be absent) are modelled with `Option`: the attribute that
an object genuinely carries is `some`, a missing one is `none`, and a
computation that reads a missing attribute evaluates to `none` (the
`AttributeError`/`TypeError` of the Python run).
-/

/-- 4-dimensional rational tensor `(n_graph, n_head, i, j)`, as a total
function on indices. -/
abbrev Tens4 : Type := ℕ → ℕ → ℕ → ℕ → ℚ

/-- 3-dimensional rational tensor, as a total function on indices. -/
abbrev Tens3 : Type := ℕ → ℕ → ℕ → ℚ

/-- `torch.clamp(x, min := lo, max := hi)` on an integer tensor entry. -/
def clampI (lo hi x : ℤ) : ℤ := max lo (min hi x)

/-- `torch.clamp(x, min := lo, max := hi)` on a floating entry, exactly over `ℚ`. -/
def clampQ (lo hi x : ℚ) : ℚ := max lo (min hi x)

/-- `.long()` on a floating tensor entry: conversion to int64 truncates
toward zero. -/
def ratTrunc (x : ℚ) : ℤ := Int.tdiv x.num (x.den : ℤ)

/-- Entry lookup in an `nn.Embedding(n, ·)` weight table at a (signed)
index.  An index outside `[0, n)` is an out-of-bounds error in the source;
the guard records that case (the error branch is never reached on clamped
indices, which is proved below). -/
def embGet (n : ℕ) (tbl : Fin n → ℕ → ℚ) (idx : ℤ) : ℕ → ℚ :=
  if h : 0 ≤ idx ∧ idx < (n : ℤ) then
    tbl ⟨idx.toNat, by omega⟩
  else
    fun _ => 0

/-- Bucket index for `len_shortest_path` (line 205):
`torch.clamp(data.len_shortest_path, min=0, max=39).long()`. -/
def lenShortestPathBucket (v : ℤ) : ℤ := clampI 0 39 v

/-- Bucket index for `num_shortest_path` (line 222):
`torch.clamp(data.num_shortest_path, min=0, max=39).long()`. -/
def numShortestPathBucket (v : ℤ) : ℤ := clampI 0 39 v

/-- Bucket index for the Jaccard channel (line 226):
`torch.clamp(undir_jac*30, min=0, max=39).long()`. -/
def undirJacBucket (v : ℚ) : ℤ := ratTrunc (clampQ 0 39 (v * 30))

/-- Bucket index for the Adamic-Adar channel (line 230):
`torch.clamp(undir_aa*10, min=0, max=39).long()`. -/
def undirAaBucket (v : ℚ) : ℤ := ratTrunc (clampQ 0 39 (v * 10))

/-- Bucket index for in-degree and out-degree (lines 206-207):
`torch.clamp(data.in_degree, min=0, max=63).long()`. -/
def degreeBucket (v : ℤ) : ℤ := clampI 0 63 v

/-- Nonlinear scalar primitives of the tensor library, abstracted as
rational functions: `exp` models the exponential inside `torch.softmax`,
`rsqrt x` models `x ** -0.5` (and the `1/sqrt` of `nn.LayerNorm`), `gelu`
models `nn.GELU`. -/
structure Primitives where
  exp : ℚ → ℚ
  rsqrt : ℚ → ℚ
  gelu : ℚ → ℚ

/-- `y = W x + b` for `nn.Linear(inDim, outDim)`: entry `o` of the output. -/
def linearMap (inDim : ℕ) (W : ℕ → ℕ → ℚ) (b : ℕ → ℚ) (x : ℕ → ℚ) (o : ℕ) : ℚ :=
  (∑ f ∈ Finset.range inDim, W o f * x f) + b o

/-- `nn.LayerNorm(n)` over the last dimension (entry `d`), with the default
`eps = 1e-5`; the reciprocal square root is the abstract primitive. -/
def layerNorm (P : Primitives) (n : ℕ) (gamma beta : ℕ → ℚ) (x : ℕ → ℚ) (d : ℕ) : ℚ :=
  let mu : ℚ := (∑ i ∈ Finset.range n, x i) / (n : ℚ)
  let varx : ℚ := (∑ i ∈ Finset.range n, (x i - mu) ^ 2) / (n : ℚ)
  (x d - mu) * P.rsqrt (varx + 1 / 100000) * gamma d + beta d

/-- Learned weights of one `MultiHeadAttention` module:
`linear_q`, `linear_k`, `linear_v`, `output_layer`. -/
structure MHAParams where
  q_weight : ℕ → ℕ → ℚ
  q_bias : ℕ → ℚ
  k_weight : ℕ → ℕ → ℚ
  k_bias : ℕ → ℚ
  v_weight : ℕ → ℕ → ℚ
  v_bias : ℕ → ℚ
  out_weight : ℕ → ℕ → ℚ
  out_bias : ℕ → ℚ

/-- `MultiHeadAttention.forward` (lines 51-84), value level, in evaluation
mode (`att_dropout` is the identity).  `s` is the key/value sequence length
(the size softmax normalises over, `dim=3`).  The head split
`view(batch, -1, num_heads, att)` followed by `transpose` sends flat
feature index `h*att + d` to head `h`, head-dim `d`; the final
`transpose/view` concatenation inverts that, so the context vector at flat
index `o` reads head `o / att`, head-dim `o % att`. -/
def mhaForward (P : Primitives) (hidden num_heads s : ℕ) (p : MHAParams)
    (q k v : Tens3) (attn_bias : Option Tens4) : Tens3 :=
  let att := hidden / num_heads
  let scale := P.rsqrt (att : ℚ)          -- self.scale = att_size ** -0.5
  let qp : Tens3 := fun g i o => linearMap hidden p.q_weight p.q_bias (q g i) o
  let kp : Tens3 := fun g i o => linearMap hidden p.k_weight p.k_bias (k g i) o
  let vp : Tens3 := fun g i o => linearMap hidden p.v_weight p.v_bias (v g i) o
  -- x = torch.matmul(q * scale, k.transpose): [b, h, q_len, k_len]
  let score : Tens4 := fun g h i j =>
    ∑ d ∈ Finset.range att, scale * qp g i (h * att + d) * kp g j (h * att + d)
  let score : Tens4 :=
    match attn_bias with
    | some b => fun g h i j => score g h i j + b g h i j
    | none => score
  -- x = torch.softmax(x, dim=3); att_dropout is the identity in eval mode
  let attw : Tens4 := fun g h i j =>
    P.exp (score g h i j) / ∑ l ∈ Finset.range s, P.exp (score g h i l)
  -- x = x.matmul(v), concatenate heads: flat index o = (o/att)*att + o%att
  let ctx : Tens3 := fun g i o =>
    ∑ j ∈ Finset.range s, attw g (o / att) i j * vp g j (o / att * att + o % att)
  fun g i o => linearMap (num_heads * att) p.out_weight p.out_bias (ctx g i) o

/-- Learned weights of one `EncoderLayer` (lines 87-117). -/
structure EncoderLayerParams where
  ln1_gamma : ℕ → ℚ
  ln1_beta : ℕ → ℚ
  attn : MHAParams
  ln2_gamma : ℕ → ℚ
  ln2_beta : ℕ → ℚ
  ffn1_weight : ℕ → ℕ → ℚ
  ffn1_bias : ℕ → ℚ
  ffn2_weight : ℕ → ℕ → ℚ
  ffn2_bias : ℕ → ℚ

/-- `FeedForwardNetwork.forward` (lines 22-26): linear, GELU, linear. -/
def ffnForward (P : Primitives) (hidden ffn_dim : ℕ) (L : EncoderLayerParams)
    (x : ℕ → ℚ) : ℕ → ℚ :=
  let h1 := fun o => linearMap hidden L.ffn1_weight L.ffn1_bias x o
  let h2 := fun o => P.gelu (h1 o)
  fun o => linearMap ffn_dim L.ffn2_weight L.ffn2_bias h2 o

/-- `EncoderLayer.forward` (lines 107-117), evaluation mode (both dropouts
are the identity): pre-norm attention residual, then pre-norm FFN residual. -/
def encoderLayerForward (P : Primitives) (hidden ffn_dim num_heads s : ℕ)
    (L : EncoderLayerParams) (x : Tens3) (attn_bias : Tens4) : Tens3 :=
  let y : Tens3 := fun g i d => layerNorm P hidden L.ln1_gamma L.ln1_beta (x g i) d
  let y : Tens3 := mhaForward P hidden num_heads s L.attn y y y (some attn_bias)
  let x1 : Tens3 := fun g i d => x g i d + y g i d
  let y2 : Tens3 := fun g i d => layerNorm P hidden L.ln2_gamma L.ln2_beta (x1 g i) d
  let y2 : Tens3 := fun g i d => ffnForward P hidden ffn_dim L (y2 g i) d
  fun g i d => x1 g i d + y2 g i d

/-- The input record consumed by `Graphormer.forward` (a collated graph
batch).  Fields the batch may lack are `Option`; reading an absent field
is the Python error modelled by `none`. -/
structure GraphData where
  x : Tens3
  edge_index : ℕ → ℕ → ℤ
  attn_bias : Tens3
  len_shortest_path : ℕ → ℕ → ℕ → ℤ
  num_shortest_path : Option (ℕ → ℕ → ℕ → ℤ)
  undir_jac : Option (ℕ → ℕ → ℕ → ℚ)
  undir_aa : Option (ℕ → ℕ → ℕ → ℚ)
  in_degree : Option (ℕ → ℕ → ℤ)
  out_degree : Option (ℕ → ℕ → ℤ)
  n_graph : ℕ
  n_node : ℕ

/-- The `Graphormer` module state after `__init__` (lines 121-173): the
configuration, and every learned parameter.  The embedding tables of the
four optional structural channels exist only when the corresponding toggle
was set at construction, hence `Option`. -/
structure Graphormer where
  num_heads : ℕ
  hidden_dim : ℕ
  ffn_dim : ℕ
  num_node_feat : ℕ
  multi_hop_max_dist : ℕ
  use_num_spd : Bool
  use_cnb_jac : Bool
  use_cnb_aa : Bool
  use_degree : Bool
  atom_weight : ℕ → ℕ → ℚ
  atom_bias : ℕ → ℚ
  len_shortest_path_encoder : Fin 40 → ℕ → ℚ
  num_shortest_path_encoder : Option (Fin 40 → ℕ → ℚ)
  undir_jac_encoder : Option (Fin 40 → ℕ → ℚ)
  undir_aa_encoder : Option (Fin 40 → ℕ → ℚ)
  in_degree_encoder : Option (Fin 64 → ℕ → ℚ)
  out_degree_encoder : Option (Fin 64 → ℕ → ℚ)
  graph_token : ℕ → ℚ
  graph_token_virtual_distance : ℕ → ℚ
  layers : List EncoderLayerParams
  final_ln_gamma : ℕ → ℚ
  final_ln_beta : ℕ → ℚ

/-- `spatial_pos_bias` (lines 220-231): the summed structural-channel
contribution, already permuted to `(n_graph, n_head, n_node, n_node)`.
Each enabled optional channel reads its data field and its encoder
attribute; a missing one is a Python error (`none`). -/
def Graphormer.spatialPosBias (m : Graphormer) (dat : GraphData) : Option Tens4 := do
  -- line 220: self.len_shortest_path_encoder(len_shortest_path).permute(0, 3, 1, 2)
  let spb : Tens4 := fun g h i j =>
    embGet 40 m.len_shortest_path_encoder (lenShortestPathBucket (dat.len_shortest_path g i j)) h
  -- lines 221-223
  let spb : Tens4 ←
    if m.use_num_spd then do
      let nsp ← dat.num_shortest_path
      let tbl ← m.num_shortest_path_encoder
      pure (fun g h i j => spb g h i j + embGet 40 tbl (numShortestPathBucket (nsp g i j)) h)
    else pure spb
  -- lines 224-227
  let spb : Tens4 ←
    if m.use_cnb_jac then do
      let uj ← dat.undir_jac
      let tbl ← m.undir_jac_encoder
      pure (fun g h i j => spb g h i j + embGet 40 tbl (undirJacBucket (uj g i j)) h)
    else pure spb
  -- lines 228-231
  let spb : Tens4 ←
    if m.use_cnb_aa then do
      let ua ← dat.undir_aa
      let tbl ← m.undir_aa_encoder
      pure (fun g h i j => spb g h i j + embGet 40 tbl (undirAaBucket (ua g i j)) h)
    else pure spb
  pure spb

/-- `graph_attn_bias` as assembled by `Graphormer.forward` (lines 213-241):
clone the caller bias and broadcast over heads, add the structural sum into
the `[1:, 1:]` sub-block, add the virtual-distance constant to column 0 of
rows `1:` and to all of row 0, then add the caller bias once more. -/
def Graphormer.graphAttnBias (m : Graphormer) (dat : GraphData) : Option Tens4 := do
  let spb ← m.spatialPosBias dat
  -- lines 213-215: attn_bias.clone().unsqueeze(1).repeat(1, num_heads, 1, 1)
  let gb : Tens4 := fun g _h i j => dat.attn_bias g i j
  -- lines 232-233: graph_attn_bias[:, :, 1:, 1:] += spatial_pos_bias
  let gb : Tens4 := fun g h i j =>
    if 1 ≤ i ∧ 1 ≤ j then gb g h i j + spb g h (i - 1) (j - 1) else gb g h i j
  -- line 237: t = graph_token_virtual_distance.weight.view(1, num_heads, 1)
  let t := m.graph_token_virtual_distance
  -- line 238: graph_attn_bias[:, :, 1:, 0] += t
  let gb : Tens4 := fun g h i j =>
    if 1 ≤ i ∧ j = 0 then gb g h i j + t h else gb g h i j
  -- line 239: graph_attn_bias[:, :, 0, :] += t
  let gb : Tens4 := fun g h i j =>
    if i = 0 then gb g h i j + t h else gb g h i j
  -- line 241: graph_attn_bias = graph_attn_bias + attn_bias.unsqueeze(1)
  pure (fun g h i j => gb g h i j + dat.attn_bias g i j)

/-- Node-feature sequence with the graph token prepended (lines 244-254).
`in_degree`/`out_degree` are the already-clamped bucket tensors computed in
the forward prologue; the degree encoder attributes are read only when
`use_degree` is set. -/
def Graphormer.nodeFeatureSeq (m : Graphormer) (dat : GraphData)
    (in_degree out_degree : ℕ → ℕ → ℤ) : Option Tens3 := do
  -- line 244: node_feature = self.atom_encoder(x)
  let nf : Tens3 := fun g v d => linearMap m.num_node_feat m.atom_weight m.atom_bias (dat.x g v) d
  -- lines 247-250
  let nf : Tens3 ←
    if m.use_degree then do
      let inT ← m.in_degree_encoder
      let outT ← m.out_degree_encoder
      pure (fun g v d => nf g v d + embGet 64 inT (in_degree g v) d
        + embGet 64 outT (out_degree g v) d)
    else pure nf
  -- lines 251-254: prepend the graph token at position 0
  pure (fun g p d => if p = 0 then m.graph_token d else nf g (p - 1) d)

/-- `Graphormer.forward` (lines 194-262), evaluation mode.  The `perturb`
argument is accepted (defaulting to `none` in the source) and appears
nowhere in the body, exactly as in the source.  Note lines 206-207 read and
clamp `data.in_degree` / `data.out_degree` unconditionally, before and
independently of the `use_degree` toggle. -/
def Graphormer.forward (P : Primitives) (m : Graphormer) (dat : GraphData)
    (perturb : Option Tens3) : Option Tens3 := do
  -- lines 203-207
  let in_deg0 ← dat.in_degree
  let out_deg0 ← dat.out_degree
  let in_degree := fun g v => degreeBucket (in_deg0 g v)
  let out_degree := fun g v => degreeBucket (out_deg0 g v)
  -- lines 212-241
  let gab ← m.graphAttnBias dat
  -- lines 244-254
  let seq ← m.nodeFeatureSeq dat in_degree out_degree
  -- lines 257-260: input_dropout is the identity in eval mode
  let s := dat.n_node + 1
  let out := m.layers.foldl
    (fun acc L => encoderLayerForward P m.hidden_dim m.ffn_dim m.num_heads s L acc gab) seq
  pure (fun g p d => layerNorm P m.hidden_dim m.final_ln_gamma m.final_ln_beta (out g p) d)

/-- Derived state of `MultiHeadAttention.__init__` (lines 30-43). -/
structure MultiHeadAttentionCfg where
  num_heads : ℕ
  att_size : ℕ

/-- `MultiHeadAttention.__init__` (lines 30-43).  The body performs no
divisibility validation; the only ways it can raise are the two Python
`ZeroDivisionError`s: `hidden_size // num_heads` at `num_heads = 0`, and
`self.scale = att_size ** -0.5` at `att_size = 0` (a zero float raised to a
negative power). -/
def MultiHeadAttention.init (hidden_size num_heads : ℕ) :
    Except String MultiHeadAttentionCfg :=
  if num_heads = 0 then
    .error "ZeroDivisionError: integer division or modulo by zero"
  else if hidden_size / num_heads = 0 then
    .error "ZeroDivisionError: 0.0 cannot be raised to a negative power"
  else
    .ok { num_heads := num_heads, att_size := hidden_size / num_heads }

/-- Freshly drawn initial weights, supplied to the constructor (standing in
for the random default initialisers of the wrapped modules). -/
structure InitWeights where
  atom_weight : ℕ → ℕ → ℚ
  atom_bias : ℕ → ℚ
  len_spd_weight : Fin 40 → ℕ → ℚ
  num_spd_weight : Fin 40 → ℕ → ℚ
  jac_weight : Fin 40 → ℕ → ℚ
  aa_weight : Fin 40 → ℕ → ℚ
  in_degree_weight : Fin 64 → ℕ → ℚ
  out_degree_weight : Fin 64 → ℕ → ℚ
  graph_token_weight : ℕ → ℚ
  gtvd_weight : ℕ → ℚ
  final_gamma : ℕ → ℚ
  final_beta : ℕ → ℚ

/-- The module state `Graphormer.__init__` (lines 121-173) builds: each
optional structural channel's embedding table is allocated exactly when its
toggle is set; everything else is unconditional. -/
def Graphormer.build (n_layers num_node_feat num_heads hidden_dim ffn_dim : ℕ)
    (use_num_spd use_cnb_jac use_cnb_aa use_degree : Bool)
    (multi_hop_max_dist : ℕ) (w : InitWeights) (lw : ℕ → EncoderLayerParams) :
    Graphormer where
  num_heads := num_heads
  hidden_dim := hidden_dim
  ffn_dim := ffn_dim
  num_node_feat := num_node_feat
  multi_hop_max_dist := multi_hop_max_dist
  use_num_spd := use_num_spd
  use_cnb_jac := use_cnb_jac
  use_cnb_aa := use_cnb_aa
  use_degree := use_degree
  atom_weight := w.atom_weight
  atom_bias := w.atom_bias
  len_shortest_path_encoder := w.len_spd_weight
  num_shortest_path_encoder := if use_num_spd then some w.num_spd_weight else none
  undir_jac_encoder := if use_cnb_jac then some w.jac_weight else none
  undir_aa_encoder := if use_cnb_aa then some w.aa_weight else none
  in_degree_encoder := if use_degree then some w.in_degree_weight else none
  out_degree_encoder := if use_degree then some w.out_degree_weight else none
  graph_token := w.graph_token_weight
  graph_token_virtual_distance := w.gtvd_weight
  layers := (List.range n_layers).map lw
  final_ln_gamma := w.final_gamma
  final_ln_beta := w.final_beta

/-- `Graphormer.__init__` (lines 121-173).  The body contains no
assertion, no divisibility check, and no raise of its own; the only
failure it can propagate is the `ZeroDivisionError` of the
`MultiHeadAttention` constructed inside each of the `n_layers`
`EncoderLayer`s (lines 160-161). -/
def Graphormer.init (n_layers num_node_feat num_heads hidden_dim ffn_dim : ℕ)
    (use_num_spd use_cnb_jac use_cnb_aa use_degree : Bool)
    (multi_hop_max_dist : ℕ) (w : InitWeights) (lw : ℕ → EncoderLayerParams) :
    Except String Graphormer := do
  let _ ← (List.range n_layers).mapM fun _ => MultiHeadAttention.init hidden_dim num_heads
  .ok (Graphormer.build n_layers num_node_feat num_heads hidden_dim ffn_dim
    use_num_spd use_cnb_jac use_cnb_aa use_degree multi_hop_max_dist w lw)

/-- `Graphormer.reset_parameters` (lines 175-192).  The three optional
bias-channel encoders are reset only behind their toggles (lines 185-190),
but lines 191-192 access `self.in_degree_encoder` and
`self.out_degree_encoder` unconditionally: on a model built without
`use_degree` these attributes were never allocated, and the access is a
Python `AttributeError`, modelled by `none`.  The graph-token embeddings
are not reset (faithful to the source, which omits them). -/
def Graphormer.reset_parameters (m : Graphormer) (fresh : InitWeights)
    (freshLayer : ℕ → EncoderLayerParams) : Option Graphormer := do
  -- lines 176-179: layers, final_ln, atom_encoder always exist
  let newLayers := (List.range m.layers.length).map freshLayer
  -- lines 185-186
  let numE ←
    if m.use_num_spd then do
      let _ ← m.num_shortest_path_encoder
      pure (some fresh.num_spd_weight)
    else pure m.num_shortest_path_encoder
  -- lines 187-188
  let jacE ←
    if m.use_cnb_jac then do
      let _ ← m.undir_jac_encoder
      pure (some fresh.jac_weight)
    else pure m.undir_jac_encoder
  -- lines 189-190
  let aaE ←
    if m.use_cnb_aa then do
      let _ ← m.undir_aa_encoder
      pure (some fresh.aa_weight)
    else pure m.undir_aa_encoder
  -- lines 191-192: unconditional attribute accesses
  let _ ← m.in_degree_encoder
  let _ ← m.out_degree_encoder
  pure { m with
    layers := newLayers
    final_ln_gamma := fresh.final_gamma
    final_ln_beta := fresh.final_beta
    atom_weight := fresh.atom_weight
    atom_bias := fresh.atom_bias
    len_shortest_path_encoder := fresh.len_spd_weight
    num_shortest_path_encoder := numE
    undir_jac_encoder := jacE
    undir_aa_encoder := aaE
    in_degree_encoder := some fresh.in_degree_weight
    out_degree_encoder := some fresh.out_degree_weight }

/-! ## Shape semantics of `MultiHeadAttention.forward`

Shapes are tracked symbolically; `Option` records the library's shape
errors (a `view` whose `-1` dimension cannot be inferred, a matmul with
mismatched inner dimension, a linear layer fed the wrong last dimension,
and the `assert` on line 83). -/

/-- Inference of the `-1` dimension of `Tensor.view`: the known dimensions
must be nonzero and divide the element count evenly. -/
def viewInfer (total known : ℕ) : Option ℕ :=
  if known ≠ 0 ∧ total % known = 0 then some (total / known) else none

/-- Shape behaviour of `MultiHeadAttention.forward` (lines 51-84) on
3-dimensional `q`, `k`, `v` (no bias), with `att_size = hidden // num_heads`:
returns the output shape, or `none` where the source run raises.  The final
step models the `assert x.size() == orig_q_size` on line 83: an assertion
failure is an error, a success returns the (asserted-equal) output shape. -/
def mhaForwardShape (hidden num_heads : ℕ) (qs ks vs : ℕ × ℕ × ℕ) :
    Option (ℕ × ℕ × ℕ) := do
  let att := hidden / num_heads
  -- linear_q/k/v each require last dimension hidden_size
  if qs.2.2 ≠ hidden ∨ ks.2.2 ≠ hidden ∨ vs.2.2 ≠ hidden then none else do
  -- .view(batch_size, -1, num_heads, att) with batch_size = q.size(0)
  let lq ← viewInfer (qs.1 * qs.2.1 * (num_heads * att)) (qs.1 * (num_heads * att))
  let lk ← viewInfer (ks.1 * ks.2.1 * (num_heads * att)) (qs.1 * (num_heads * att))
  let lv ← viewInfer (vs.1 * vs.2.1 * (num_heads * att)) (qs.1 * (num_heads * att))
  -- torch.matmul(q, k): [b, h, lq, att] x [b, h, att, lk] -> [b, h, lq, lk];
  -- x.matmul(v): [b, h, lq, lk] x [b, h, lv, att] needs lk = lv
  if lk ≠ lv then none else do
  -- x.transpose(1, 2).contiguous().view(batch_size, -1, num_heads * att)
  let lout ← viewInfer (qs.1 * lq * (num_heads * att)) (qs.1 * (num_heads * att))
  -- output_layer: Linear(num_heads * att, hidden) on last dimension
  let res := (qs.1, lout, hidden)
  -- line 83: assert x.size() == orig_q_size
  if res = qs then some res else none

/-! ## Storage semantics of the tensor program of `Graphormer.forward`

A heap of tensor storages, to settle the frame property: out-of-place
operations allocate fresh storage, and the only in-place operations of the
whole forward pass — the three slice assignments into `graph_attn_bias`
(lines 232, 238, 239) — write to storage allocated inside the call (the
`clone`/`repeat` of lines 213-215), never to a caller-supplied tensor.
Stored values are rational; an integer tensor is stored as its exact
rational image, and `.long()` is `ratTrunc` on the stored value. -/

/-- A tensor storage: up to 4 index dimensions (trailing dimensions of
lower-rank tensors are indexed with 0). -/
abbrev TensorVal : Type := ℕ → ℕ → ℕ → ℕ → ℚ

/-- The tensor heap: contents per storage id, and the next fresh id. -/
structure Store where
  mem : ℕ → TensorVal
  next : ℕ

/-- Allocate fresh storage holding `v`; returns the new heap and the id. -/
def Store.alloc (s : Store) (v : TensorVal) : Store × ℕ :=
  ({ mem := Function.update s.mem s.next v, next := s.next + 1 }, s.next)

/-- Overwrite the storage at `id` (an in-place tensor mutation). -/
def Store.write (s : Store) (id : ℕ) (v : TensorVal) : Store :=
  { s with mem := Function.update s.mem id v }

/-- Storage ids of the caller-supplied input tensors of one forward call. -/
structure ForwardInputIds where
  x : ℕ
  attn_bias : ℕ
  len_shortest_path : ℕ
  num_shortest_path : ℕ
  undir_jac : ℕ
  undir_aa : ℕ
  in_degree : ℕ
  out_degree : ℕ

/-- The parameters the tensor program of `Graphormer.forward` reads (the
module's own weights live outside the tensor heap). -/
structure ForwardTensorParams where
  use_num_spd : Bool
  use_cnb_jac : Bool
  use_cnb_aa : Bool
  use_degree : Bool
  len_shortest_path_encoder : Fin 40 → ℕ → ℚ
  num_shortest_path_encoder : Fin 40 → ℕ → ℚ
  undir_jac_encoder : Fin 40 → ℕ → ℚ
  undir_aa_encoder : Fin 40 → ℕ → ℚ
  in_degree_encoder : Fin 64 → ℕ → ℚ
  out_degree_encoder : Fin 64 → ℕ → ℚ
  graph_token : ℕ → ℚ
  graph_token_virtual_distance : ℕ → ℚ
  atom_weight : ℕ → ℕ → ℚ
  atom_bias : ℕ → ℚ
  num_node_feat : ℕ

/-- Lines 205-207 of the tensor program: the three out-of-place clamps of
`len_shortest_path`, `in_degree`, `out_degree`; returns the three fresh
ids. -/
def progPrologue (ids : ForwardInputIds) (s : Store) : Store × ℕ × ℕ × ℕ :=
  let (s, lspId) := s.alloc fun g i j _ =>
    ((ratTrunc (clampQ 0 39 (s.mem ids.len_shortest_path g i j 0)) : ℤ) : ℚ)
  let (s, inDegId) := s.alloc fun g v _ _ =>
    ((ratTrunc (clampQ 0 63 (s.mem ids.in_degree g v 0 0)) : ℤ) : ℚ)
  let (s, outDegId) := s.alloc fun g v _ _ =>
    ((ratTrunc (clampQ 0 63 (s.mem ids.out_degree g v 0 0)) : ℤ) : ℚ)
  (s, lspId, inDegId, outDegId)

/-- Lines 213-215: `attn_bias.clone()` then `.unsqueeze(1).repeat(...)`;
both allocate; returns the id of the head-broadcast `graph_attn_bias`. -/
def progCloneRepeat (ids : ForwardInputIds) (s : Store) : Store × ℕ :=
  let (s, gb0) := s.alloc fun g i j _ => s.mem ids.attn_bias g i j 0
  let (s, gb) := s.alloc fun g _h i j => s.mem gb0 g i j 0
  (s, gb)

/-- Line 220: lookup of the always-on shortest-path-length channel
(+ permute), allocating the initial `spatial_pos_bias`. -/
def progSpdBase (p : ForwardTensorParams) (lspId : ℕ) (s : Store) : Store × ℕ :=
  s.alloc fun g h i j =>
    embGet 40 p.len_shortest_path_encoder (ratTrunc (s.mem lspId g i j 0)) h

/-- Lines 221-223: the optional shortest-path-count channel (clamp, lookup,
add — three allocations) or a pass-through when disabled. -/
def progSpdNum (p : ForwardTensorParams) (ids : ForwardInputIds) (spbId : ℕ)
    (s : Store) : Store × ℕ :=
  if p.use_num_spd then
    let (s, nspId) := s.alloc fun g i j _ =>
      ((ratTrunc (clampQ 0 39 (s.mem ids.num_shortest_path g i j 0)) : ℤ) : ℚ)
    let (s, lkId) := s.alloc fun g h i j =>
      embGet 40 p.num_shortest_path_encoder (ratTrunc (s.mem nspId g i j 0)) h
    let (s, addId) := s.alloc fun g h i j => s.mem spbId g h i j + s.mem lkId g h i j
    (s, addId)
  else (s, spbId)

/-- Lines 224-227: the optional Jaccard channel. -/
def progSpdJac (p : ForwardTensorParams) (ids : ForwardInputIds) (spbId : ℕ)
    (s : Store) : Store × ℕ :=
  if p.use_cnb_jac then
    let (s, jacId) := s.alloc fun g i j _ =>
      ((ratTrunc (clampQ 0 39 (s.mem ids.undir_jac g i j 0 * 30)) : ℤ) : ℚ)
    let (s, lkId) := s.alloc fun g h i j =>
      embGet 40 p.undir_jac_encoder (ratTrunc (s.mem jacId g i j 0)) h
    let (s, addId) := s.alloc fun g h i j => s.mem spbId g h i j + s.mem lkId g h i j
    (s, addId)
  else (s, spbId)

/-- Lines 228-231: the optional Adamic-Adar channel. -/
def progSpdAa (p : ForwardTensorParams) (ids : ForwardInputIds) (spbId : ℕ)
    (s : Store) : Store × ℕ :=
  if p.use_cnb_aa then
    let (s, aaId) := s.alloc fun g i j _ =>
      ((ratTrunc (clampQ 0 39 (s.mem ids.undir_aa g i j 0 * 10)) : ℤ) : ℚ)
    let (s, lkId) := s.alloc fun g h i j =>
      embGet 40 p.undir_aa_encoder (ratTrunc (s.mem aaId g i j 0)) h
    let (s, addId) := s.alloc fun g h i j => s.mem spbId g h i j + s.mem lkId g h i j
    (s, addId)
  else (s, spbId)

/-- Lines 232-241: the three slice assignments — the only in-place writes
of the whole forward pass, all targeting the freshly built
`graph_attn_bias` storage `gb` — and the final out-of-place add of the
baseline bias (line 241), whose fresh id is returned. -/
def progBiasWrites (p : ForwardTensorParams) (ids : ForwardInputIds)
    (gb spbId : ℕ) (s : Store) : Store × ℕ :=
  -- lines 232-233: graph_attn_bias[:, :, 1:, 1:] = ... + spatial_pos_bias
  let (s, t1) := s.alloc fun g h i j => s.mem gb g h (i + 1) (j + 1) + s.mem spbId g h i j
  let s := s.write gb fun g h i j =>
    if 1 ≤ i ∧ 1 ≤ j then s.mem t1 g h (i - 1) (j - 1) else s.mem gb g h i j
  -- line 238: graph_attn_bias[:, :, 1:, 0] = ... + t
  let (s, t2) := s.alloc fun g h i _ =>
    s.mem gb g h (i + 1) 0 + p.graph_token_virtual_distance h
  let s := s.write gb fun g h i j =>
    if 1 ≤ i ∧ j = 0 then s.mem t2 g h (i - 1) 0 else s.mem gb g h i j
  -- line 239: graph_attn_bias[:, :, 0, :] = ... + t
  let (s, t3) := s.alloc fun g h j _ => s.mem gb g h 0 j + p.graph_token_virtual_distance h
  let s := s.write gb fun g h i j =>
    if i = 0 then s.mem t3 g h j 0 else s.mem gb g h i j
  -- line 241: graph_attn_bias = graph_attn_bias + attn_bias.unsqueeze(1)
  s.alloc fun g h i j => s.mem gb g h i j + s.mem ids.attn_bias g i j 0

/-- Lines 244-254: the node-feature pipeline (atom encoding, optional
degree offsets, graph-token prepend), entirely out of place; returns the
id of the sequence handed to the encoder stack. -/
def progNodeFeat (p : ForwardTensorParams) (ids : ForwardInputIds)
    (inDegId outDegId : ℕ) (s : Store) : Store × ℕ :=
  -- line 244: node_feature = atom_encoder(x)
  let (s, nfId) := s.alloc fun g v d _ =>
    linearMap p.num_node_feat p.atom_weight p.atom_bias (fun f => s.mem ids.x g v f 0) d
  -- lines 247-250
  let (s, nfId) :=
    if p.use_degree then
      let (s, e1) := s.alloc fun g v d _ =>
        embGet 64 p.in_degree_encoder (ratTrunc (s.mem inDegId g v 0 0)) d
      let (s, e2) := s.alloc fun g v d _ =>
        embGet 64 p.out_degree_encoder (ratTrunc (s.mem outDegId g v 0 0)) d
      let (s, sumId) := s.alloc fun g v d _ =>
        s.mem nfId g v d 0 + s.mem e1 g v d 0 + s.mem e2 g v d 0
      (s, sumId)
    else (s, nfId)
  -- lines 251-252: graph_token.weight.unsqueeze(0).repeat(n_graph, 1, 1)
  let (s, gtId) := s.alloc fun _g _ d _ => p.graph_token d
  -- lines 253-254: torch.cat([graph_token_feature, node_feature], dim=1)
  s.alloc fun g pos d _ =>
    if pos = 0 then s.mem gtId g 0 d 0 else s.mem nfId g (pos - 1) d 0

/-- The tensor program of `Graphormer.forward`, lines 203-254, over the
storage heap: every out-of-place operation (`torch.clamp`, `.clone()`,
`.repeat`, embedding lookup, `+`, `torch.cat`) allocates, and the three
slice assignments of lines 232-239 write in place to the `graph_attn_bias`
storage built on lines 213-215.  Returns the heap together with the ids of
`graph_attn_bias` and of the node sequence handed to the encoder stack
(whose layers, lines 257-262, perform no in-place operation). -/
def forwardTensorProg (p : ForwardTensorParams) (ids : ForwardInputIds)
    (s : Store) : Store × ℕ × ℕ :=
  let (s, lspId, inDegId, outDegId) := progPrologue ids s
  let (s, gb) := progCloneRepeat ids s
  let (s, spbId) := progSpdBase p lspId s
  let (s, spbId) := progSpdNum p ids spbId s
  let (s, spbId) := progSpdJac p ids spbId s
  let (s, spbId) := progSpdAa p ids spbId s
  let (s, gabId) := progBiasWrites p ids gb spbId s
  let (s, seqId) := progNodeFeat p ids inDegId outDegId s
  (s, gabId, seqId)

/-! ## Helper lemmas and concrete instances -/

/-- Lookup in an all-zero embedding table is zero (both the table entries
and the out-of-range guard value are zero). -/
theorem embGet_zero (n : ℕ) (idx : ℤ) : embGet n (fun _ _ => 0) idx = fun _ => 0 := by
  unfold embGet
  split <;> rfl

/-- On nonnegative rationals, int64 truncation agrees with the floor. -/
theorem ratTrunc_eq_floor {x : ℚ} (h : 0 ≤ x) : ratTrunc x = ⌊x⌋ := by
  unfold ratTrunc
  rw [Int.tdiv_eq_ediv (Rat.num_nonneg.mpr h) (by positivity), Rat.floor_def]

/-- All-zero multi-head-attention weights. -/
def zeroMHA : MHAParams where
  q_weight := fun _ _ => 0
  q_bias := fun _ => 0
  k_weight := fun _ _ => 0
  k_bias := fun _ => 0
  v_weight := fun _ _ => 0
  v_bias := fun _ => 0
  out_weight := fun _ _ => 0
  out_bias := fun _ => 0

/-- All-zero encoder-layer weights. -/
def zeroLayer : EncoderLayerParams where
  ln1_gamma := fun _ => 0
  ln1_beta := fun _ => 0
  attn := zeroMHA
  ln2_gamma := fun _ => 0
  ln2_beta := fun _ => 0
  ffn1_weight := fun _ _ => 0
  ffn1_bias := fun _ => 0
  ffn2_weight := fun _ _ => 0
  ffn2_bias := fun _ => 0

/-- All-zero initial weights. -/
def w0 : InitWeights where
  atom_weight := fun _ _ => 0
  atom_bias := fun _ => 0
  len_spd_weight := fun _ _ => 0
  num_spd_weight := fun _ _ => 0
  jac_weight := fun _ _ => 0
  aa_weight := fun _ _ => 0
  in_degree_weight := fun _ _ => 0
  out_degree_weight := fun _ _ => 0
  graph_token_weight := fun _ => 0
  gtvd_weight := fun _ => 0
  final_gamma := fun _ => 0
  final_beta := fun _ => 0

/-- Concrete (computable) stand-ins for the nonlinear primitives. -/
def P0 : Primitives where
  exp := fun _ => 1
  rsqrt := fun _ => 1
  gelu := fun x => x

/-- A small concrete model: 1 layer, 2 node features, 2 heads, hidden 4,
ffn 8, all optional channels disabled. -/
def m0 : Graphormer :=
  Graphormer.build 1 2 2 4 8 false false false false 20 w0 fun _ => zeroLayer

/-- A small concrete input batch: every field present, all entries zero,
one graph with two nodes. -/
def dat0 : GraphData where
  x := fun _ _ _ => 0
  edge_index := fun _ _ => 0
  attn_bias := fun _ _ _ => 0
  len_shortest_path := fun _ _ _ => 0
  num_shortest_path := some fun _ _ _ => 0
  undir_jac := some fun _ _ _ => 0
  undir_aa := some fun _ _ _ => 0
  in_degree := some fun _ _ => 0
  out_degree := some fun _ _ => 0
  n_graph := 1
  n_node := 2

/-- A concrete heap whose ids 0-7 hold the (zero) input tensors. -/
def store0 : Store where
  mem := fun _ _ _ _ _ => 0
  next := 8

/-- Concrete input ids inside `store0`. -/
def ids0 : ForwardInputIds where
  x := 0
  attn_bias := 1
  len_shortest_path := 2
  num_shortest_path := 3
  undir_jac := 4
  undir_aa := 5
  in_degree := 6
  out_degree := 7

/-- Concrete forward-pass parameters with every channel enabled (the run
with the most reads and writes). -/
def ftp0 : ForwardTensorParams where
  use_num_spd := true
  use_cnb_jac := true
  use_cnb_aa := true
  use_degree := true
  len_shortest_path_encoder := fun _ _ => 0
  num_shortest_path_encoder := fun _ _ => 0
  undir_jac_encoder := fun _ _ => 0
  undir_aa_encoder := fun _ _ => 0
  in_degree_encoder := fun _ _ => 0
  out_degree_encoder := fun _ _ => 0
  graph_token := fun _ => 0
  graph_token_virtual_distance := fun _ => 0
  atom_weight := fun _ _ => 0
  atom_bias := fun _ => 0
  num_node_feat := 2

/-- Closed form of the assembled bias: whenever the structural sum exists,
entry `(g, h, i, j)` of `graph_attn_bias` is the caller bias, plus the
structural sum on the `[1:, 1:]` block, plus the virtual-distance constant
on row 0 and column 0, plus the caller bias once more. -/
theorem graphAttnBias_eq (m : Graphormer) (dat : GraphData) :
    m.graphAttnBias dat = (m.spatialPosBias dat).map fun spb => fun g h i j =>
      dat.attn_bias g i j
        + (if 1 ≤ i ∧ 1 ≤ j then spb g h (i - 1) (j - 1) else 0)
        + (if i = 0 ∨ j = 0 then m.graph_token_virtual_distance h else 0)
        + dat.attn_bias g i j := by
  unfold Graphormer.graphAttnBias
  cases hs : m.spatialPosBias dat with
  | none => rfl
  | some spb =>
    simp only [Option.pure_def, Option.bind_eq_bind, Option.some_bind, Option.map_some',
      Option.some.injEq]
    funext g h i j
    by_cases hi : i = 0 <;> by_cases hj : j = 0 <;>
      simp [hi, hj, Nat.one_le_iff_ne_zero]

/-- C1: for every forward call, the final attention-bias tensor equals the
cloned caller-supplied baseline bias broadcast over heads, plus the summed
structural-channel contribution written into the node-to-node `[1:, 1:]`
sub-block, plus the graph-token virtual-distance term on row 0 and
column 0, plus the original baseline bias added once more across the whole
matrix — so every entry carries the baseline bias exactly twice. -/
theorem C1_bias_accumulation (m : Graphormer) (dat : GraphData) :
    m.graphAttnBias dat = (m.spatialPosBias dat).map fun spb => fun g h i j =>
      dat.attn_bias g i j
        + (if 1 ≤ i ∧ 1 ≤ j then spb g h (i - 1) (j - 1) else 0)
        + (if i = 0 ∨ j = 0 then m.graph_token_virtual_distance h else 0)
        + dat.attn_bias g i j :=
  graphAttnBias_eq m dat

/-- C3: in the bias tensor of every forward call, any entry on the
graph-token row (`i = 0`) or column (`j = 0`) is exactly the learned
per-head virtual-distance constant plus the double-applied baseline bias —
no structural-channel contribution — while every node-to-node entry
(`i, j ≥ 1`) is the double baseline plus the structural sum at
`(i-1, j-1)` and carries no virtual-distance term. -/
theorem C3_graph_token_row_column (m : Graphormer) (dat : GraphData) (g h i j : ℕ) :
    (i = 0 ∨ j = 0 →
      (m.graphAttnBias dat).map (fun B => B g h i j)
        = (m.graphAttnBias dat).map fun _ =>
            m.graph_token_virtual_distance h + 2 * dat.attn_bias g i j)
    ∧ (1 ≤ i → 1 ≤ j →
      (m.graphAttnBias dat).map (fun B => B g h i j)
        = (m.spatialPosBias dat).map fun spb =>
            2 * dat.attn_bias g i j + spb g h (i - 1) (j - 1)) := by
  rw [graphAttnBias_eq]
  cases hs : m.spatialPosBias dat with
  | none => exact ⟨fun _ => rfl, fun _ _ => rfl⟩
  | some spb =>
    constructor
    · intro hij
      simp only [Option.map_some', Option.some.injEq]
      rcases hij with h0 | h0 <;> simp [h0, Nat.one_le_iff_ne_zero] <;> ring
    · intro hi hj
      simp only [Option.map_some', Option.some.injEq]
      have hni : ¬(i = 0 ∨ j = 0) := by omega
      simp [hni, hi, hj]
      ring

/-- Witness for C3 at a concrete model and batch: a graph-token-row entry
and a node-to-node entry of the assembled bias. -/
theorem C3_witness :
    ((m0.graphAttnBias dat0).map (fun B => B 0 0 0 2)
      = (m0.graphAttnBias dat0).map fun _ =>
          m0.graph_token_virtual_distance 0 + 2 * dat0.attn_bias 0 0 2)
    ∧ ((m0.graphAttnBias dat0).map (fun B => B 0 0 1 2)
      = (m0.spatialPosBias dat0).map fun spb =>
          2 * dat0.attn_bias 0 1 2 + spb 0 0 0 1) :=
  ⟨(C3_graph_token_row_column m0 dat0 0 0 0 2).1 (Or.inl rfl),
   (C3_graph_token_row_column m0 dat0 0 0 1 2).2 (by decide) (by decide)⟩

/-- C4: every structural value is clamped into its channel's bucket range
before table lookup — shortest-path length/count into `[0, 39]`, Jaccard
times 30 into `[0, 39]`, Adamic-Adar times 10 into `[0, 39]`, degrees into
`[0, 63]` (so the embedding lookup can never be out of bounds: no error is
raised); clamping fixes in-range values, repeated clamping is idempotent,
and out-of-range values saturate at the boundary (1000 to 39, -1 to 0). -/
theorem C4_structural_clamping :
    (∀ v : ℤ, 0 ≤ lenShortestPathBucket v ∧ lenShortestPathBucket v < 40) ∧
    (∀ v : ℤ, 0 ≤ numShortestPathBucket v ∧ numShortestPathBucket v < 40) ∧
    (∀ v : ℚ, 0 ≤ undirJacBucket v ∧ undirJacBucket v < 40) ∧
    (∀ v : ℚ, 0 ≤ undirAaBucket v ∧ undirAaBucket v < 40) ∧
    (∀ v : ℤ, 0 ≤ degreeBucket v ∧ degreeBucket v < 64) ∧
    (∀ v : ℤ, 0 ≤ v → v ≤ 39 →
      lenShortestPathBucket v = v ∧ numShortestPathBucket v = v) ∧
    (∀ v : ℤ, 0 ≤ v → v ≤ 63 → degreeBucket v = v) ∧
    (∀ v : ℚ, clampQ 0 39 (clampQ 0 39 v) = clampQ 0 39 v) ∧
    (∀ v : ℤ, 39 < v → lenShortestPathBucket v = 39 ∧ numShortestPathBucket v = 39) ∧
    (∀ v : ℤ, v < 0 → lenShortestPathBucket v = 0 ∧ numShortestPathBucket v = 0) ∧
    (∀ v : ℤ, 63 < v → degreeBucket v = 63) ∧
    (∀ v : ℤ, v < 0 → degreeBucket v = 0) ∧
    lenShortestPathBucket 1000 = 39 ∧ lenShortestPathBucket (-1) = 0 := by
  have hQ : ∀ v : ℚ, 0 ≤ clampQ 0 39 v ∧ clampQ 0 39 v ≤ 39 := fun v =>
    ⟨le_max_left _ _, max_le (by norm_num) (min_le_left _ _)⟩
  have htr : ∀ y : ℚ, 0 ≤ y → y ≤ 39 → 0 ≤ ratTrunc y ∧ ratTrunc y < 40 := by
    intro y h0 h39
    rw [ratTrunc_eq_floor h0]
    have h1 : (0 : ℤ) ≤ ⌊y⌋ := Int.floor_nonneg.mpr h0
    have h2 : ⌊y⌋ ≤ ⌊(39 : ℚ)⌋ := Int.floor_le_floor h39
    have h3 : ⌊(39 : ℚ)⌋ = 39 := by norm_num
    omega
  refine ⟨?_, ?_, ?_, ?_, ?_, ?_, ?_, ?_, ?_, ?_, ?_, ?_, ?_, ?_⟩
  · intro v; unfold lenShortestPathBucket clampI; omega
  · intro v; unfold numShortestPathBucket clampI; omega
  · intro v; exact htr _ (hQ (v * 30)).1 (hQ (v * 30)).2
  · intro v; exact htr _ (hQ (v * 10)).1 (hQ (v * 10)).2
  · intro v; unfold degreeBucket clampI; omega
  · intro v h0 h39
    unfold lenShortestPathBucket numShortestPathBucket clampI
    omega
  · intro v h0 h63; unfold degreeBucket clampI; omega
  · intro v
    have h1 := (hQ v).1
    have h2 := (hQ v).2
    conv_lhs => rw [clampQ]
    rw [min_eq_right h2, max_eq_right h1]
  · intro v hv; unfold lenShortestPathBucket numShortestPathBucket clampI; omega
  · intro v hv; unfold lenShortestPathBucket numShortestPathBucket clampI; omega
  · intro v hv; unfold degreeBucket clampI; omega
  · intro v hv; unfold degreeBucket clampI; omega
  · decide
  · decide

/-- Witness for C4 at concrete inputs: an in-range shortest-path length is
fixed, an in-range degree is fixed, and a concrete Jaccard score lands in
the table range. -/
theorem C4_witness :
    lenShortestPathBucket 7 = 7 ∧ degreeBucket 50 = 50 ∧
    (0 ≤ undirJacBucket (1 / 2) ∧ undirJacBucket (1 / 2) < 40) := by
  obtain ⟨-, -, h3, -, -, h6, h7, -⟩ := C4_structural_clamping
  exact ⟨(h6 7 (by decide) (by decide)).1, h7 50 (by decide) (by decide), h3 (1 / 2)⟩

/-- `mapM.loop` of a constant successful action always succeeds. -/
theorem mapM_loop_const_ok {α β : Type} (c : β) :
    ∀ (l : List α) (acc : List β), ∃ r,
      List.mapM.loop (fun _ => (Except.ok c : Except String β)) l acc
        = Except.ok r := by
  intro l
  induction l with
  | nil => intro acc; exact ⟨acc.reverse, rfl⟩
  | cons a t ih => intro acc; exact ih (c :: acc)

/-- `mapM` of a constant successful action over any list succeeds. -/
theorem mapM_const_ok {α β : Type} (l : List α) (c : β) :
    ∃ r, l.mapM (fun _ => (Except.ok c : Except String β)) = Except.ok r :=
  mapM_loop_const_ok c l []

/-- C2 counterexample: `hidden_dim = 10` is not divisible by
`num_heads = 3`, yet constructing the model succeeds — `__init__` performs
no divisibility validation (`att_size` is the floor `10 // 3 = 3`). -/
theorem C2_counterexample :
    (10 : ℕ) % 3 ≠ 0 ∧
    (Graphormer.init 2 3 3 10 16 false false false false 20 w0
      fun _ => zeroLayer).isOk = true :=
  ⟨by decide, by decide⟩

/-- C2 amended: construction does not fail fast on a violating pair.  For
every configuration with a positive head count no larger than the hidden
dimension — divisible or not — construction succeeds; the only
construction-time failure in the source is the `ZeroDivisionError` of
`att_size ** -0.5` when `hidden_dim // num_heads = 0` (plus the integer
division by zero at `num_heads = 0`), neither of which is a divisibility
check. -/
theorem C2_amended_no_divisibility_check
    (n_layers num_node_feat num_heads hidden_dim ffn_dim : ℕ)
    (f1 f2 f3 f4 : Bool) (mh : ℕ) (w : InitWeights)
    (lw : ℕ → EncoderLayerParams)
    (hpos : 0 < num_heads) (hle : num_heads ≤ hidden_dim) :
    (Graphormer.init n_layers num_node_feat num_heads hidden_dim ffn_dim
      f1 f2 f3 f4 mh w lw).isOk = true := by
  have hmha : MultiHeadAttention.init hidden_dim num_heads
      = Except.ok { num_heads := num_heads, att_size := hidden_dim / num_heads } := by
    unfold MultiHeadAttention.init
    rw [if_neg (by omega), if_neg]
    have : 1 ≤ hidden_dim / num_heads := (Nat.one_le_div_iff hpos).mpr hle
    omega
  unfold Graphormer.init
  obtain ⟨r, hr⟩ := mapM_const_ok (List.range n_layers)
    ({ num_heads := num_heads, att_size := hidden_dim / num_heads } :
      MultiHeadAttentionCfg)
  simp only [hmha, hr]
  rfl

/-- Witness for C2's amended statement at a concrete violating pair
(`hidden_dim = 10`, `num_heads = 4`). -/
theorem C2_amended_witness :
    (0 : ℕ) < 4 ∧ (4 : ℕ) ≤ 10 ∧
    (Graphormer.init 1 2 4 10 8 true true true true 20 w0
      fun _ => zeroLayer).isOk = true :=
  ⟨by decide, by decide,
   C2_amended_no_divisibility_check 1 2 4 10 8 true true true true 20 w0
     (fun _ => zeroLayer) (by decide) (by decide)⟩

/-- C5: for query/key/value inputs of shape `(b, s, hidden)` with positive
sizes and `num_heads` dividing `hidden`, `MultiHeadAttention.forward`
returns a tensor whose shape equals the query shape, and the `assert` on
line 83 never fails (the result is `some`, and by construction of
`mhaForwardShape` a `some` result has passed the assert). -/
theorem C5_mha_output_shape (hidden num_heads b s : ℕ)
    (hdvd : num_heads ∣ hidden) (hh : 0 < num_heads) (hhid : 0 < hidden)
    (hb : 0 < b) :
    mhaForwardShape hidden num_heads (b, s, hidden) (b, s, hidden) (b, s, hidden)
      = some (b, s, hidden) := by
  obtain ⟨c, rfl⟩ := hdvd
  have hc : 0 < c := by
    rcases Nat.eq_zero_or_pos c with h | h
    · subst h; simp at hhid
    · exact h
  have hatt : num_heads * c / num_heads = c := Nat.mul_div_cancel_left c hh
  have hknown : 0 < b * (num_heads * c) := by positivity
  have hview : viewInfer (b * s * (num_heads * c)) (b * (num_heads * c)) = some s := by
    unfold viewInfer
    rw [if_pos]
    · congr 1
      rw [show b * s * (num_heads * c) = b * (num_heads * c) * s by ring]
      exact Nat.mul_div_cancel_left s hknown
    · refine ⟨by omega, ?_⟩
      rw [show b * s * (num_heads * c) = b * (num_heads * c) * s by ring]
      exact Nat.mul_mod_right _ _
  unfold mhaForwardShape
  simp only [hatt, hview]
  simp [hview]

/-- Witness for C5 at a concrete shape: batch 2, sequence 3, hidden 8,
2 heads. -/
theorem C5_witness :
    mhaForwardShape 8 2 (2, 3, 8) (2, 3, 8) (2, 3, 8) = some (2, 3, 8) :=
  C5_mha_output_shape 8 2 2 3 (by decide) (by decide) (by decide) (by decide)

/-- C7: for every input batch, the bias tensor built with an optional
structural channel disabled is identical (exactly, entry for entry) to the
bias tensor built with that channel enabled but its embedding table forced
to zero — for each of the three bias channels (shortest-path count,
Jaccard, Adamic-Adar) and for arbitrary channel data supplied to the
enabled run. -/
theorem C7_zero_table_equivalence (m : Graphormer) (dat : GraphData)
    (nd : ℕ → ℕ → ℕ → ℤ) (jd ad : ℕ → ℕ → ℕ → ℚ) :
    Graphormer.graphAttnBias { m with use_num_spd := false } dat
      = Graphormer.graphAttnBias
          { m with use_num_spd := true,
                   num_shortest_path_encoder := some fun _ _ => 0 }
          { dat with num_shortest_path := some nd }
    ∧ Graphormer.graphAttnBias { m with use_cnb_jac := false } dat
      = Graphormer.graphAttnBias
          { m with use_cnb_jac := true, undir_jac_encoder := some fun _ _ => 0 }
          { dat with undir_jac := some jd }
    ∧ Graphormer.graphAttnBias { m with use_cnb_aa := false } dat
      = Graphormer.graphAttnBias
          { m with use_cnb_aa := true, undir_aa_encoder := some fun _ _ => 0 }
          { dat with undir_aa := some ad } := by
  have h1 : Graphormer.spatialPosBias { m with use_num_spd := false } dat
      = Graphormer.spatialPosBias
          { m with use_num_spd := true,
                   num_shortest_path_encoder := some fun _ _ => 0 }
          { dat with num_shortest_path := some nd } := by
    unfold Graphormer.spatialPosBias
    dsimp only
    simp [embGet_zero]
  have h2 : Graphormer.spatialPosBias { m with use_cnb_jac := false } dat
      = Graphormer.spatialPosBias
          { m with use_cnb_jac := true, undir_jac_encoder := some fun _ _ => 0 }
          { dat with undir_jac := some jd } := by
    unfold Graphormer.spatialPosBias
    dsimp only
    simp [embGet_zero]
  have h3 : Graphormer.spatialPosBias { m with use_cnb_aa := false } dat
      = Graphormer.spatialPosBias
          { m with use_cnb_aa := true, undir_aa_encoder := some fun _ _ => 0 }
          { dat with undir_aa := some ad } := by
    unfold Graphormer.spatialPosBias
    dsimp only
    simp [embGet_zero]
  refine ⟨?_, ?_, ?_⟩
  · rw [graphAttnBias_eq, graphAttnBias_eq, h1]
  · rw [graphAttnBias_eq, graphAttnBias_eq, h2]
  · rw [graphAttnBias_eq, graphAttnBias_eq, h3]

/-- C6 counterexample: a model constructed with the degree channel
disabled, applied to a batch whose `in_degree` field is absent, fails —
line 206 reads `data.in_degree` unconditionally, before and independently
of `use_degree`. -/
theorem C6_counterexample :
    Graphormer.forward P0 m0 { dat0 with in_degree := none } none = none := rfl

/-- C6 amended: for the three optional bias channels (shortest-path count,
Jaccard, Adamic-Adar), a disabled channel's table and data are never
referenced at forward time and the call is well-defined with those fields
absent; for the degree channel, the embedding tables are never referenced
when it is disabled, but the `in_degree`/`out_degree` data fields are read
(and clamped) unconditionally on lines 206-207, so they must be present
even when degree encoding is disabled. -/
theorem C6_amended_channel_reference (P : Primitives) (m : Graphormer)
    (dat : GraphData) (pert : Option Tens3)
    (tbN tbJ tbA : Option (Fin 40 → ℕ → ℚ)) (dN : Option (ℕ → ℕ → ℕ → ℤ))
    (dJ dA : Option (ℕ → ℕ → ℕ → ℚ)) (dt1 dt2 : Option (Fin 64 → ℕ → ℚ))
    (di dj : ℕ → ℕ → ℤ) :
    (Graphormer.forward P
        { m with use_num_spd := false, num_shortest_path_encoder := tbN }
        { dat with num_shortest_path := dN } pert
      = Graphormer.forward P
        { m with use_num_spd := false, num_shortest_path_encoder := none }
        { dat with num_shortest_path := none } pert)
    ∧ (Graphormer.forward P
        { m with use_cnb_jac := false, undir_jac_encoder := tbJ }
        { dat with undir_jac := dJ } pert
      = Graphormer.forward P
        { m with use_cnb_jac := false, undir_jac_encoder := none }
        { dat with undir_jac := none } pert)
    ∧ (Graphormer.forward P
        { m with use_cnb_aa := false, undir_aa_encoder := tbA }
        { dat with undir_aa := dA } pert
      = Graphormer.forward P
        { m with use_cnb_aa := false, undir_aa_encoder := none }
        { dat with undir_aa := none } pert)
    ∧ (Graphormer.forward P
        { m with use_degree := false, in_degree_encoder := dt1,
                 out_degree_encoder := dt2 } dat pert
      = Graphormer.forward P
        { m with use_degree := false, in_degree_encoder := none,
                 out_degree_encoder := none } dat pert)
    ∧ ((Graphormer.forward P
        { m with use_num_spd := false, use_cnb_jac := false,
                 use_cnb_aa := false, use_degree := false }
        { dat with num_shortest_path := none, undir_jac := none,
                   undir_aa := none, in_degree := some di,
                   out_degree := some dj } pert).isSome = true)
    ∧ (Graphormer.forward P m { dat with in_degree := none } pert = none) := by
  refine ⟨?_, ?_, ?_, ?_, ?_, rfl⟩ <;>
  · unfold Graphormer.forward Graphormer.graphAttnBias Graphormer.spatialPosBias
      Graphormer.nodeFeatureSeq
    dsimp only
    simp

/-- C9: `reset_parameters` accesses the two degree embedding tables
unconditionally (lines 191-192): on every model constructed with
`use_degree = True` it succeeds, and on every model constructed with
`use_degree = False` it raises an `AttributeError` (the tables were never
allocated), modelled by `none`. -/
theorem C9_reset_parameters_degree_tables
    (n_layers num_node_feat num_heads hidden_dim ffn_dim : ℕ)
    (f1 f2 f3 : Bool) (mh : ℕ) (w fresh : InitWeights)
    (lw flw : ℕ → EncoderLayerParams) :
    ((Graphormer.build n_layers num_node_feat num_heads hidden_dim ffn_dim
        f1 f2 f3 true mh w lw).reset_parameters fresh flw).isSome = true
    ∧ (Graphormer.build n_layers num_node_feat num_heads hidden_dim ffn_dim
        f1 f2 f3 false mh w lw).reset_parameters fresh flw = none := by
  constructor <;>
  · cases f1 <;> cases f2 <;> cases f3 <;>
      simp [Graphormer.build, Graphormer.reset_parameters]

/-- C10: `Graphormer.forward` accepts a `perturb` argument but never reads
it — with dropout disabled (evaluation mode), any two values of `perturb`
produce identical outputs on every input batch. -/
theorem C10_perturb_never_read (P : Primitives) (m : Graphormer)
    (dat : GraphData) (p1 p2 : Option Tens3) :
    Graphormer.forward P m dat p1 = Graphormer.forward P m dat p2 := rfl

/-- Frame invariant: every storage id below `n` is unchanged from `s0` to
`s1`, and the allocator has not moved backwards past `n`. -/
def FramesN (n : ℕ) (s0 s1 : Store) : Prop :=
  n ≤ s1.next ∧ ∀ id, id < n → s1.mem id = s0.mem id

theorem framesN_trans {n : ℕ} {s0 s1 s2 : Store}
    (h1 : FramesN n s0 s1) (h2 : FramesN n s1 s2) : FramesN n s0 s2 :=
  ⟨h2.1, fun id hid => (h2.2 id hid).trans (h1.2 id hid)⟩

theorem progPrologue_frames (n : ℕ) (ids : ForwardInputIds) (s : Store)
    (hn : n ≤ s.next) : FramesN n s (progPrologue ids s).1 := by
  unfold progPrologue Store.alloc
  refine ⟨by dsimp; omega, fun id hid => ?_⟩
  dsimp
  simp only [Function.update_apply]
  rw [if_neg (by omega), if_neg (by omega), if_neg (by omega)]

theorem progCloneRepeat_frames (n : ℕ) (ids : ForwardInputIds) (s : Store)
    (hn : n ≤ s.next) : FramesN n s (progCloneRepeat ids s).1 := by
  unfold progCloneRepeat Store.alloc
  refine ⟨by dsimp; omega, fun id hid => ?_⟩
  dsimp
  simp only [Function.update_apply]
  rw [if_neg (by omega), if_neg (by omega)]

theorem progCloneRepeat_gb (ids : ForwardInputIds) (s : Store) :
    s.next ≤ (progCloneRepeat ids s).2 := by
  unfold progCloneRepeat Store.alloc
  dsimp
  omega

theorem progSpdBase_frames (n : ℕ) (p : ForwardTensorParams) (lspId : ℕ)
    (s : Store) (hn : n ≤ s.next) : FramesN n s (progSpdBase p lspId s).1 := by
  unfold progSpdBase Store.alloc
  refine ⟨by dsimp; omega, fun id hid => ?_⟩
  dsimp
  simp only [Function.update_apply]
  rw [if_neg (by omega)]

theorem progSpdNum_frames (n : ℕ) (p : ForwardTensorParams)
    (ids : ForwardInputIds) (spbId : ℕ) (s : Store) (hn : n ≤ s.next) :
    FramesN n s (progSpdNum p ids spbId s).1 := by
  unfold progSpdNum Store.alloc
  cases hN : p.use_num_spd
  · simpa using ⟨hn, fun _ _ => rfl⟩
  · simp only [if_true]
    refine ⟨by dsimp; omega, fun id hid => ?_⟩
    dsimp
    simp only [Function.update_apply]
    rw [if_neg (by omega), if_neg (by omega), if_neg (by omega)]

theorem progSpdJac_frames (n : ℕ) (p : ForwardTensorParams)
    (ids : ForwardInputIds) (spbId : ℕ) (s : Store) (hn : n ≤ s.next) :
    FramesN n s (progSpdJac p ids spbId s).1 := by
  unfold progSpdJac Store.alloc
  cases hJ : p.use_cnb_jac
  · simpa using ⟨hn, fun _ _ => rfl⟩
  · simp only [if_true]
    refine ⟨by dsimp; omega, fun id hid => ?_⟩
    dsimp
    simp only [Function.update_apply]
    rw [if_neg (by omega), if_neg (by omega), if_neg (by omega)]

theorem progSpdAa_frames (n : ℕ) (p : ForwardTensorParams)
    (ids : ForwardInputIds) (spbId : ℕ) (s : Store) (hn : n ≤ s.next) :
    FramesN n s (progSpdAa p ids spbId s).1 := by
  unfold progSpdAa Store.alloc
  cases hA : p.use_cnb_aa
  · simpa using ⟨hn, fun _ _ => rfl⟩
  · simp only [if_true]
    refine ⟨by dsimp; omega, fun id hid => ?_⟩
    dsimp
    simp only [Function.update_apply]
    rw [if_neg (by omega), if_neg (by omega), if_neg (by omega)]

theorem progBiasWrites_frames (n : ℕ) (p : ForwardTensorParams)
    (ids : ForwardInputIds) (gb spbId : ℕ) (s : Store) (hn : n ≤ s.next)
    (hgb : n ≤ gb) : FramesN n s (progBiasWrites p ids gb spbId s).1 := by
  unfold progBiasWrites Store.alloc Store.write
  refine ⟨by dsimp; omega, fun id hid => ?_⟩
  dsimp
  simp only [Function.update_apply]
  rw [if_neg (by omega), if_neg (by omega), if_neg (by omega), if_neg (by omega),
    if_neg (by omega), if_neg (by omega), if_neg (by omega)]

theorem progNodeFeat_frames (n : ℕ) (p : ForwardTensorParams)
    (ids : ForwardInputIds) (inDegId outDegId : ℕ) (s : Store)
    (hn : n ≤ s.next) : FramesN n s (progNodeFeat p ids inDegId outDegId s).1 := by
  unfold progNodeFeat Store.alloc
  cases hD : p.use_degree
  · simp only [if_false]
    refine ⟨by dsimp; omega, fun id hid => ?_⟩
    dsimp
    simp only [Function.update_apply]
    rw [if_neg (by omega), if_neg (by omega), if_neg (by omega)]
  · simp only [if_true]
    refine ⟨by dsimp; omega, fun id hid => ?_⟩
    dsimp
    simp only [Function.update_apply]
    rw [if_neg (by omega), if_neg (by omega), if_neg (by omega), if_neg (by omega),
      if_neg (by omega), if_neg (by omega)]

/-- C8: a forward call never mutates any caller-supplied input tensor:
the baseline attention bias is cloned (lines 213-215) before the in-place
slice assignments, which all target the clone, and after the call every
pre-existing storage id — the baseline bias, node features, structural
matrices and degree vectors among them — holds exactly its old contents. -/
theorem C8_no_input_mutation (p : ForwardTensorParams) (ids : ForwardInputIds)
    (s : Store) (id : ℕ) (hid : id < s.next) :
    ((forwardTensorProg p ids s).1).mem id = s.mem id := by
  unfold forwardTensorProg
  rcases h1 : progPrologue ids s with ⟨s1, lspId, inDegId, outDegId⟩
  dsimp only
  rcases h2 : progCloneRepeat ids s1 with ⟨s2, gb⟩
  dsimp only
  rcases h3 : progSpdBase p lspId s2 with ⟨s3, spb1⟩
  dsimp only
  rcases h4 : progSpdNum p ids spb1 s3 with ⟨s4, spb2⟩
  dsimp only
  rcases h5 : progSpdJac p ids spb2 s4 with ⟨s5, spb3⟩
  dsimp only
  rcases h6 : progSpdAa p ids spb3 s5 with ⟨s6, spb4⟩
  dsimp only
  rcases h7 : progBiasWrites p ids gb spb4 s6 with ⟨s7, gabId⟩
  dsimp only
  rcases h8 : progNodeFeat p ids inDegId outDegId s7 with ⟨s8, seqId⟩
  dsimp only
  have F1 : FramesN s.next s s1 := by
    have h := progPrologue_frames s.next ids s le_rfl
    rw [h1] at h
    exact h
  have F2 : FramesN s.next s s2 := by
    have h := progCloneRepeat_frames s.next ids s1 F1.1
    rw [h2] at h
    exact framesN_trans F1 h
  have hgb : s.next ≤ gb := by
    have h := progCloneRepeat_gb ids s1
    rw [h2] at h
    exact le_trans F1.1 h
  have F3 : FramesN s.next s s3 := by
    have h := progSpdBase_frames s.next p lspId s2 F2.1
    rw [h3] at h
    exact framesN_trans F2 h
  have F4 : FramesN s.next s s4 := by
    have h := progSpdNum_frames s.next p ids spb1 s3 F3.1
    rw [h4] at h
    exact framesN_trans F3 h
  have F5 : FramesN s.next s s5 := by
    have h := progSpdJac_frames s.next p ids spb2 s4 F4.1
    rw [h5] at h
    exact framesN_trans F4 h
  have F6 : FramesN s.next s s6 := by
    have h := progSpdAa_frames s.next p ids spb3 s5 F5.1
    rw [h6] at h
    exact framesN_trans F5 h
  have F7 : FramesN s.next s s7 := by
    have h := progBiasWrites_frames s.next p ids gb spb4 s6 F6.1 hgb
    rw [h7] at h
    exact framesN_trans F6 h
  have F8 : FramesN s.next s s8 := by
    have h := progNodeFeat_frames s.next p ids inDegId outDegId s7 F7.1
    rw [h8] at h
    exact framesN_trans F7 h
  exact F8.2 id hid

/-- Witness for C8 on a concrete heap: after running the all-channels
forward tensor program on `store0`, the baseline-bias storage (id 1) is
untouched. -/
theorem C8_witness :
    ((forwardTensorProg ftp0 ids0 store0).1).mem 1 = store0.mem 1 :=
  C8_no_input_mutation ftp0 ids0 store0 1 (by decide)
